import Mathlib

/-!
Shallow embedding of the document-processing queue subsystem
(`database.py`, `processory.py`, `watcher.py`) and proofs about the
frozen behavioural claims.

Statuses are stored as plain strings, as in the SQLite schema
(`status TEXT DEFAULT 'pending'` / `'queued'`).  Quality scores are
modelled as natural numbers of tenths of a point (the workflow engine's
`overall_score`, e.g. `40` means `4.0`), so that the `:.1f` rendering in
the rejection message is exact.  The store is a pair of association
lists keyed by the primary-key columns, mirroring the two tables.
-/

/-- One row of the `batches` table (`database.py` schema). -/
structure Batch where
  user_email : String
  analysis_type : String
  total_documents : Int
  completed_documents : Int
  status : String
deriving Repr, DecidableEq

/-- One row of the `documents` table (`database.py` schema).
Nullable columns are `Option`s. -/
structure Document where
  batch_id : String
  filename : String
  local_path : String
  analysis_type : String
  user_email : String
  status : String
  quality_score : Option Nat
  sharepoint_url : Option String
  report_url : Option String
  error_message : Option String
deriving Repr, DecidableEq

/-- The persistent store: both tables, keyed by primary key. -/
structure DB where
  batches : List (String × Batch)
  documents : List (String × Document)
deriving Repr, DecidableEq

/-- The dict handed to `add_document` (`document_data`). -/
structure DocumentData where
  document_id : String
  batch_id : String
  filename : String
  local_path : String
  analysis_type : String
  user_email : String
deriving Repr, DecidableEq

/-- The `**kwargs` accepted by `update_document_status`: a field is
updated exactly when the corresponding key is present. -/
structure StatusKwargs where
  quality_score : Option Nat
  sharepoint_url : Option String
  report_url : Option String
  error_message : Option String
deriving Repr, DecidableEq

/-- `UPDATE ... WHERE key = k` on an association list: applies `f` to
every row whose key matches (primary keys are unique, so at most one). -/
def updateWhere {α : Type} (k : String) (f : α → α) :
    List (String × α) → List (String × α)
  | [] => []
  | p :: l =>
    (match k == p.1 with
      | true => (p.1, f p.2)
      | false => p) :: updateWhere k f l

/-- `create_batch` (`database.py` 74-88): inserts a batch row with the
given `total_documents`, `completed_documents = 0`, status `'pending'`;
returns `false` (duplicate primary key) if the id already exists. -/
def create_batch (db : DB) (batch_id user_email analysis_type : String)
    (total_docs : Int) : DB × Bool :=
  if (db.batches.lookup batch_id).isSome then (db, false)
  else
    let row : Batch := ⟨user_email, analysis_type, total_docs, 0, "pending"⟩
    ({ db with batches := db.batches ++ [(batch_id, row)] }, true)

/-- `add_document` (`database.py` 129-151): inserts a document row in
status `'queued'`; fails only on a duplicate `document_id`.  The
schema's `FOREIGN KEY (batch_id)` clause is not enforced because the
connection never issues `PRAGMA foreign_keys = ON` (sqlite defaults to
OFF), so no batch-existence check happens. -/
def add_document (db : DB) (d : DocumentData) : DB × Bool :=
  if (db.documents.lookup d.document_id).isSome then (db, false)
  else
    let row : Document :=
      ⟨d.batch_id, d.filename, d.local_path, d.analysis_type, d.user_email,
       "queued", none, none, none, none⟩
    ({ db with documents := db.documents ++ [(d.document_id, row)] }, true)

/-- `mark_document_processing` (`database.py` 168-186): unconditional
`UPDATE documents SET status = 'processing' WHERE document_id = ?`;
returns `true` even when no row matches (sqlite UPDATE does not raise
on zero affected rows). -/
def mark_document_processing (db : DB) (document_id : String) : DB × Bool :=
  let docs := updateWhere document_id
    (fun d => { d with status := "processing" }) db.documents
  ({ db with documents := docs }, true)

/-- Apply the optional kwarg columns of `update_document_status`. -/
def applyKwargs (k : StatusKwargs) (d : Document) : Document :=
  let d := match k.quality_score with
    | some q => { d with quality_score := some q }
    | none => d
  let d := match k.sharepoint_url with
    | some u => { d with sharepoint_url := some u }
    | none => d
  let d := match k.report_url with
    | some u => { d with report_url := some u }
    | none => d
  match k.error_message with
    | some m => { d with error_message := some m }
    | none => d

/-- `update_document_status` (`database.py` 188-217): one unconditional
`UPDATE` setting `status` to the given string plus whatever kwargs are
present; no check of the current status, no return value. -/
def update_document_status (db : DB) (document_id status : String)
    (k : StatusKwargs) : DB :=
  let docs := updateWhere document_id
    (fun d => applyKwargs k { d with status := status }) db.documents
  { db with documents := docs }

/-- A document status counted by the batch-progress query
(`status IN ('completed', 'failed')`). -/
def isTerminal (s : String) : Bool := s == "completed" || s == "failed"

/-- The `SELECT COUNT(*) ... WHERE batch_id = ? AND status IN
('completed', 'failed')` query of `update_batch_progress`. -/
def batchTerminalCount (db : DB) (batch_id : String) : Int :=
  (db.documents.filter
    (fun p => p.2.batch_id == batch_id && isTerminal p.2.status)).length

/-- The `UPDATE batches SET completed_documents = ?, status = CASE WHEN
? >= total_documents THEN 'completed' ELSE 'processing' END` row
transformation of `update_batch_progress`. -/
def progressUpdate (db : DB) (batch_id : String) (b : Batch) : Batch :=
  { b with
    completed_documents := batchTerminalCount db batch_id,
    status := if batchTerminalCount db batch_id ≥ b.total_documents
      then "completed" else "processing" }

/-- `update_batch_progress` (`database.py` 99-123): counts the batch's
terminal documents, then sets `completed_documents` to that count and
`status` to `'completed'` when `count >= total_documents`, else
`'processing'`. -/
def update_batch_progress (db : DB) (batch_id : String) : DB :=
  { db with batches :=
      updateWhere batch_id (progressUpdate db batch_id) db.batches }

/-! ### Association-list lemmas -/

theorem lookup_updateWhere_self {α : Type} (k : String) (f : α → α) :
    ∀ l : List (String × α), (updateWhere k f l).lookup k = (l.lookup k).map f
  | [] => rfl
  | p :: l => by
    cases h : k == p.1 with
    | true => simp [updateWhere, List.lookup, h]
    | false => simp [updateWhere, List.lookup, h, lookup_updateWhere_self k f l]

theorem updateWhere_of_lookup_none {α : Type} (k : String) (f : α → α) :
    ∀ l : List (String × α), l.lookup k = none → updateWhere k f l = l
  | [], _ => rfl
  | p :: l, h => by
    cases hk : k == p.1 with
    | true => simp [List.lookup, hk] at h
    | false =>
      simp only [List.lookup, hk] at h
      simp [updateWhere, hk, updateWhere_of_lookup_none k f l h]

theorem lookup_append_single {α : Type} (k : String) (v : α) :
    ∀ l : List (String × α), l.lookup k = none → (l ++ [(k, v)]).lookup k = some v
  | [], _ => by simp [List.lookup]
  | p :: l, h => by
    cases hk : k == p.1 with
    | true => simp [List.lookup, hk] at h
    | false =>
      simp only [List.lookup, hk] at h
      simp [List.lookup, hk, lookup_append_single k v l h]

theorem mem_updateWhere {α : Type} (k : String) (f : α → α) :
    ∀ l : List (String × α), ∀ p ∈ updateWhere k f l,
      p ∈ l ∨ ∃ q ∈ l, p = (q.1, f q.2)
  | [], p, hp => by simp [updateWhere] at hp
  | q :: l, p, hp => by
    simp only [updateWhere] at hp
    rcases List.mem_cons.mp hp with h | h
    · cases hk : k == q.1 with
      | true =>
        rw [hk] at h
        exact Or.inr ⟨q, List.mem_cons_self q l, h⟩
      | false =>
        rw [hk] at h
        exact Or.inl (h ▸ List.mem_cons_self q l)
    · rcases mem_updateWhere k f l p h with h' | ⟨r, hr, hpr⟩
      · exact Or.inl (List.mem_cons_of_mem q h')
      · exact Or.inr ⟨r, List.mem_cons_of_mem q hr, hpr⟩

/-! ### Worker task embedding (`processory.py`)

The external collaborators — the Workflow Engine, the lazy SharePoint
initialisation, and the three Storage Uploader calls — are modelled as
an oracle `Env` fixing one behaviour for each call site: either a
returned value or a raised exception (`Except.error msg`).  Temporary
artifact files are tracked by a leak count: the number of files created
by a helper that still exist when the helper returns. -/

/-- The workflow's `final_state`, reduced to the fields the processor
reads: `automation_analysis.quality_scores.overall_score` (absent keys
modelled by `none`, defaulted to 0), the improved content and the HTML
report. -/
structure FinalState where
  overall_score : Option Nat
  improved_content : String
  report_filename : String
  report_content : String
deriving Repr, DecidableEq

/-- Behaviour of one `workflow.run_workflow` invocation: a final state,
or a raised exception with message `msg`. -/
inductive WorkflowOutcome where
  | ok (st : FinalState)
  | err (msg : String)
deriving Repr, DecidableEq

/-- One fixed behaviour of every external call a task can make. -/
structure Env where
  workflow : WorkflowOutcome
  initSP : Except String Unit
  uploadHtml : Except String String
  uploadTxt : Except String String
  uploadReport : Except String String
deriving Repr

/-- `QUALITY_THRESHOLD = 7.0` (`processory.py` line 26), in tenths. -/
def QUALITY_THRESHOLD : Nat := 70

/-- Render a tenths score the way Python's `f"{x:.1f}"` renders the
exact-tenths floats the model ranges over (and the way `str(7.0)`
renders the threshold): `40 ↦ "4.0"`, `70 ↦ "7.0"`. -/
def fmtTenths (t : Nat) : String := toString (t / 10) ++ "." ++ toString (t % 10)

/-- The dict `_process_async` returns. -/
structure ProcResult where
  success : Bool
  quality_score : Nat
  error : String
deriving Repr, DecidableEq

/-- `_process_async` (`processory.py` 155-191): runs the workflow inside
its own try/except; an engine exception yields `success = False` with
the error text, a normal return yields `success = True` with
`overall_score` extracted (defaulting to 0 when absent). -/
def process_async (env : Env) : ProcResult :=
  match env.workflow with
  | .err m => ⟨false, 0, m⟩
  | .ok st => ⟨true, st.overall_score.getD 0, ""⟩

/-- Result of `_upload_approved`: the two URLs of the returned dict and
the number of temporary artifact files left on disk. -/
structure UploadApprovedResult where
  html_url : String
  content_url : String
  leakedTempFiles : Nat
deriving Repr, DecidableEq

/-- `_upload_approved` (`processory.py` 193-233): writes two temp files
(HTML report and improved content), uploads the report then the
content, and only after both uploads succeed removes the two files.
Any exception is caught and `{'html_url': '', 'content_url': ''}` is
returned — in that case the cleanup lines were never reached, so both
temp files remain. -/
def upload_approved (env : Env) : UploadApprovedResult :=
  match env.uploadHtml with
  | .error _ => ⟨"", "", 2⟩
  | .ok hurl =>
    match env.uploadTxt with
    | .error _ => ⟨"", "", 2⟩
    | .ok turl => ⟨hurl, turl, 0⟩

/-- `_upload_failure_report` (`processory.py` 235-309): writes the
rejection report to one temp file, uploads it, removes the file, and
returns the URL; an exception is caught and `''` returned, leaving the
temp file behind. Returns (url, leaked temp files). -/
def upload_failure_report (env : Env) : String × Nat :=
  match env.uploadReport with
  | .error _ => ("", 1)
  | .ok url => (url, 0)

/-- Observable side effects of one task, beyond the store writes. -/
structure TaskTrace where
  progressCalled : Bool
  leakedTempFiles : Nat
deriving Repr, DecidableEq

/-- `process_document` (`processory.py` 89-153): the per-document task.
Paths, exactly as in the source:
* workflow failure (`not result['success']`): terminal `failed` write
  with the error message, then `return` — no batch-progress update;
* score ≥ threshold: init SharePoint, `_upload_approved`, terminal
  `completed` write with score and both URLs, then
  `update_batch_progress`;
* score < threshold: init SharePoint, `_upload_failure_report`,
  terminal `failed` write with score, report URL and the
  `"Quality score X below threshold Y"` message, then
  `update_batch_progress`;
* any exception escaping the above (here: `_init_sharepoint` raising)
  is caught by the outer handler, which writes terminal `failed` with
  `str(e)` and nothing else. -/
def process_document (env : Env) (db : DB) (document_id batch_id : String) :
    DB × TaskTrace :=
  if (process_async env).success = false then
    (update_document_status db document_id "failed"
      ⟨none, none, none, some (process_async env).error⟩, ⟨false, 0⟩)
  else if QUALITY_THRESHOLD ≤ (process_async env).quality_score then
    match env.initSP with
    | .error m =>
      (update_document_status db document_id "failed"
        ⟨none, none, none, some m⟩, ⟨false, 0⟩)
    | .ok _ =>
      (update_batch_progress
        (update_document_status db document_id "completed"
          ⟨some (process_async env).quality_score,
           some (upload_approved env).content_url,
           some (upload_approved env).html_url, none⟩) batch_id,
       ⟨true, (upload_approved env).leakedTempFiles⟩)
  else
    match env.initSP with
    | .error m =>
      (update_document_status db document_id "failed"
        ⟨none, none, none, some m⟩, ⟨false, 0⟩)
    | .ok _ =>
      (update_batch_progress
        (update_document_status db document_id "failed"
          ⟨some (process_async env).quality_score, none,
           some (upload_failure_report env).1,
           some ("Quality score " ++ fmtTenths (process_async env).quality_score ++
             " below threshold " ++ fmtTenths QUALITY_THRESHOLD)⟩) batch_id,
       ⟨true, (upload_failure_report env).2⟩)

/-! ### Watcher startup embedding (`watcher.py`) -/

/-- Contents of the lock file: a parseable pid, or text that makes
`int(...)` raise `ValueError`. -/
inductive LockContent where
  | pid (p : Nat)
  | malformed
deriving Repr, DecidableEq

/-- The lock file on disk (`none` = file absent). -/
structure LockState where
  lockFile : Option LockContent
deriving Repr, DecidableEq

/-- The watcher's host environment: which pids are alive (the
`os.kill(pid, 0)` probe) and its own pid. -/
structure WatcherEnv where
  alive : Nat → Bool
  selfPid : Nat

/-- `is_already_running` (`watcher.py` 52-63): if the lock file exists
and its recorded pid is alive, report `true`; if the pid is dead
(`OSError`) or the contents malformed (`ValueError`), remove the stale
lock and report `false`; if no lock file, report `false`. -/
def is_already_running (env : WatcherEnv) (s : LockState) : LockState × Bool :=
  match s.lockFile with
  | none => (s, false)
  | some (.pid p) =>
    if env.alive p then (s, true) else (⟨none⟩, false)
  | some .malformed => (⟨none⟩, false)

/-- `acquire_lock` (`watcher.py` 65-73): writes this process's pid into
the lock file and reports success. -/
def acquire_lock (env : WatcherEnv) (_s : LockState) : LockState × Bool :=
  (⟨some (.pid env.selfPid)⟩, true)

/-- Outcome of the startup section of `watch_database` (`watcher.py`
84-93): either `sys.exit(1)`, or entry into the RUNNING loop with the
lock state as written. -/
inductive StartOutcome where
  | exited
  | running (s : LockState)
deriving Repr, DecidableEq

/-- `watch_database` startup (`watcher.py` 84-93): exit when
`is_already_running`, exit when `acquire_lock` fails, else run. -/
def watch_database_start (env : WatcherEnv) (s : LockState) : StartOutcome :=
  let r1 := is_already_running env s
  if r1.2 then .exited
  else
    let r2 := acquire_lock env r1.1
    if r2.2 then .running r2.1 else .exited

/-! ### Reachable store states

States reachable from the fresh schema through the public write
operations of `DocumentDatabase`. -/

inductive Reachable : DB → Prop where
  | init : Reachable ⟨[], []⟩
  | create (db : DB) (h : Reachable db) (b u a : String) (t : Int) :
      Reachable (create_batch db b u a t).1
  | add (db : DB) (h : Reachable db) (d : DocumentData) :
      Reachable (add_document db d).1
  | mark (db : DB) (h : Reachable db) (id : String) :
      Reachable (mark_document_processing db id).1
  | upd (db : DB) (h : Reachable db) (id s : String) (k : StatusKwargs) :
      Reachable (update_document_status db id s k)
  | progress (db : DB) (h : Reachable db) (b : String) :
      Reachable (update_batch_progress db b)

/-! ### Helper lemmas about the operations -/

theorem applyKwargs_status (k : StatusKwargs) (d : Document) :
    (applyKwargs k d).status = d.status := by
  obtain ⟨q, su, ru, em⟩ := k
  cases q <;> cases su <;> cases ru <;> cases em <;> rfl

theorem lookup_update_document_status (db : DB) (id status : String)
    (k : StatusKwargs) (d : Document) (h : db.documents.lookup id = some d) :
    (update_document_status db id status k).documents.lookup id
      = some (applyKwargs k { d with status := status }) := by
  show (updateWhere id _ db.documents).lookup id = _
  rw [lookup_updateWhere_self, h]
  rfl

theorem documents_update_batch_progress (db : DB) (b : String) :
    (update_batch_progress db b).documents = db.documents := rfl

theorem add_document_batches (db : DB) (d : DocumentData) :
    (add_document db d).1.batches = db.batches := by
  unfold add_document
  by_cases h : (db.documents.lookup d.document_id).isSome <;> simp [h]

/-! ### Concrete fixtures used by witnesses and counterexamples -/

def noKwargs : StatusKwargs := ⟨none, none, none, none⟩

def dataD : DocumentData :=
  ⟨"d1", "b1", "file.pdf", "uploads/file.pdf", "content_improvement", "u@ubs.com"⟩

/-- The row `add_document dataD` inserts. -/
def docQueuedRow : Document :=
  ⟨"b1", "file.pdf", "uploads/file.pdf", "content_improvement", "u@ubs.com",
   "queued", none, none, none, none⟩

/-- A store holding only document `d1`, freshly queued. -/
def dbQueued : DB := (add_document ⟨[], []⟩ dataD).1

/-- A store holding only batch `b1`, created with `total_docs = 0`. -/
def dbBatch0 : DB :=
  (create_batch ⟨[], []⟩ "b1" "u@ubs.com" "content_improvement" 0).1

/-- An environment whose workflow invocation raises. -/
def envWfErr : Env :=
  ⟨.err "boom", .ok (), .ok "https://sp/h", .ok "https://sp/t", .ok "https://sp/r"⟩

/-! ### Claims -/

/-- C10: for every document id absent from the store,
`mark_document_processing` returns `True` and `update_document_status`
returns normally, and both leave the entire store unchanged. -/
theorem c10_unknown_document_noop (db : DB) (document_id status : String)
    (k : StatusKwargs) (h : db.documents.lookup document_id = none) :
    mark_document_processing db document_id = (db, true) ∧
    update_document_status db document_id status k = db := by
  constructor
  · show ({ db with documents := updateWhere document_id _ db.documents }, true)
      = (db, true)
    rw [updateWhere_of_lookup_none _ _ _ h]
  · show { db with documents := updateWhere document_id _ db.documents } = db
    rw [updateWhere_of_lookup_none _ _ _ h]

/-- Witness for C10 at the empty store and id `dX`. -/
theorem c10_witness :
    ((⟨[], []⟩ : DB).documents.lookup "dX" = none) ∧
    (mark_document_processing ⟨[], []⟩ "dX" = (⟨[], []⟩, true) ∧
     update_document_status ⟨[], []⟩ "dX" "failed" noKwargs = ⟨[], []⟩) :=
  ⟨rfl, c10_unknown_document_noop ⟨[], []⟩ "dX" "failed" noKwargs rfl⟩

/-- C2 counterexample: a document written terminal (`completed`) and
then passed to `mark_document_processing` moves back to `processing`:
the transition `completed → processing` is reachable and no
`InvalidTransition` failure occurs, contradicting the claim that
terminal states never change. -/
theorem c2_counterexample :
    ((update_document_status dbQueued "d1" "completed" noKwargs).documents.lookup
        "d1").map Document.status = some "completed" ∧
    ((mark_document_processing
        (update_document_status dbQueued "d1" "completed" noKwargs) "d1").1.documents.lookup
        "d1").map Document.status = some "processing" ∧
    (mark_document_processing
        (update_document_status dbQueued "d1" "completed" noKwargs) "d1").2 = true := by
  refine ⟨?_, ?_, rfl⟩ <;> decide

/-- C2 amended: `mark_document_processing` and `update_document_status`
update the status of an existing document unconditionally — the former
always to `processing`, the latter to whatever status is passed —
regardless of the current (possibly terminal) status, and both report
success; no `InvalidTransition` check exists. -/
theorem c2_amended_unconditional_update (db : DB) (id : String) (d : Document)
    (status : String) (k : StatusKwargs)
    (h : db.documents.lookup id = some d) :
    (((mark_document_processing db id).1.documents.lookup id).map Document.status
        = some "processing") ∧
    (((update_document_status db id status k).documents.lookup id).map Document.status
        = some status) ∧
    (mark_document_processing db id).2 = true := by
  refine ⟨?_, ?_, rfl⟩
  · show ((updateWhere id _ db.documents).lookup id).map Document.status = _
    rw [lookup_updateWhere_self, h]
    rfl
  · rw [lookup_update_document_status db id status k d h]
    simp [applyKwargs_status]

/-- Witness for C2 amended: the store holding the queued `d1`. -/
theorem c2_amended_witness :
    dbQueued.documents.lookup "d1" = some docQueuedRow ∧
    ((((mark_document_processing dbQueued "d1").1.documents.lookup "d1").map
        Document.status = some "processing") ∧
     (((update_document_status dbQueued "d1" "completed" noKwargs).documents.lookup
        "d1").map Document.status = some "completed") ∧
     (mark_document_processing dbQueued "d1").2 = true) :=
  ⟨by decide,
   c2_amended_unconditional_update dbQueued "d1" docQueuedRow "completed" noKwargs
     (by decide)⟩

/-- C4 counterexample: batch `b1` is created with `total_docs = 0`;
one document is then enqueued against it (`add_document` succeeds), yet
`total_documents` is still `0`, not `1` — so `total_documents` does not
equal the number of documents ever enqueued against the batch. -/
theorem c4_counterexample :
    (add_document dbBatch0 dataD).2 = true ∧
    ((add_document dbBatch0 dataD).1.batches.lookup "b1").map Batch.total_documents
      = some 0 ∧
    ((add_document dbBatch0 dataD).1.batches.lookup "b1").map Batch.total_documents
      ≠ some 1 := by
  refine ⟨?_, ?_, ?_⟩ <;> decide

/-- C4 amended: a batch's `total_documents` is fixed once and for all at
creation time to the `total_docs` argument of `create_batch` (so it
never decreases), and `enqueue_document` (`add_document`) never touches
the batches table at all — the count is not derived from the documents
actually enqueued. -/
theorem c4_amended_total_fixed_at_creation (db : DB) (b u a : String) (t : Int)
    (data : DocumentData) (h : db.batches.lookup b = none) :
    (((create_batch db b u a t).1.batches.lookup b).map Batch.total_documents
      = some t) ∧
    ∀ db' : DB, (add_document db' data).1.batches = db'.batches := by
  constructor
  · unfold create_batch
    simp only [h, Option.isSome_none, Bool.false_eq_true, if_false]
    rw [lookup_append_single _ _ _ h]
    rfl
  · intro db'
    exact add_document_batches db' data

/-- Witness for C4 amended at the empty store. -/
theorem c4_amended_witness :
    ((⟨[], []⟩ : DB).batches.lookup "b1" = none) ∧
    (((create_batch ⟨[], []⟩ "b1" "u@ubs.com" "content_improvement" 0).1.batches.lookup
        "b1").map Batch.total_documents = some 0 ∧
     ∀ db' : DB, (add_document db' dataD).1.batches = db'.batches) :=
  ⟨rfl, c4_amended_total_fixed_at_creation ⟨[], []⟩ "b1" "u@ubs.com"
    "content_improvement" 0 dataD rfl⟩

/-- C6: evaluation of the code at the failing input.  With no batches at
all, `add_document` for `batch_id = "missing"` reports success and the
document row is created — no `ForeignKeyViolation` is raised, because
the connection never enables sqlite foreign-key enforcement
(`PRAGMA foreign_keys` defaults to OFF, `database.py` 15-18), so the
schema's `FOREIGN KEY (batch_id)` clause is inert. -/
theorem c6_fk_not_enforced :
    ((⟨[], []⟩ : DB).batches.lookup "missing" = none) ∧
    (add_document ⟨[], []⟩
      ⟨"dX", "missing", "f.pdf", "uploads/f.pdf", "quality_check", "u@ubs.com"⟩).2
      = true ∧
    (add_document ⟨[], []⟩
      ⟨"dX", "missing", "f.pdf", "uploads/f.pdf", "quality_check", "u@ubs.com"⟩).1.documents.lookup
      "dX" = some ⟨"missing", "f.pdf", "uploads/f.pdf", "quality_check", "u@ubs.com",
        "queued", none, none, none, none⟩ := by
  refine ⟨rfl, ?_, ?_⟩ <;> decide

/-- A successful workflow outcome used by approval-path fixtures. -/
def stOk : FinalState := ⟨some 82, "improved", "report.html", "<html></html>"⟩

/-- An approval-path environment whose first (report) upload raises. -/
def envUploadRaises : Env :=
  ⟨.ok stOk, .ok (), .error "upload boom", .ok "https://sp/t", .ok "https://sp/r"⟩

/-- C7 counterexample: on the approval path, when the report upload
raises, `_upload_approved` returns (with empty URLs) while both
temporary artifact files are still on disk — the cleanup lines are
inside the `try` after the uploads, so they are skipped and the temp
files leak. -/
theorem c7_counterexample :
    envUploadRaises.uploadHtml = .error "upload boom" ∧
    (upload_approved envUploadRaises).leakedTempFiles = 2 := ⟨rfl, rfl⟩

/-- C7 amended: `_upload_approved` deletes its temporary artifacts if
and only if both uploads return normally; if either upload raises, the
exception handler returns empty URLs and both temp files are left
behind. -/
theorem c7_amended_cleanup_iff_uploads_ok (env : Env) :
    (upload_approved env).leakedTempFiles = 0 ↔
      (∃ u, env.uploadHtml = .ok u) ∧ (∃ v, env.uploadTxt = .ok v) := by
  unfold upload_approved
  cases hh : env.uploadHtml with
  | error m => simp [hh]
  | ok u =>
    cases ht : env.uploadTxt with
    | error m => simp [hh, ht]
    | ok v => simp [hh, ht]

/-- A watcher host on which no recorded pid is alive, own pid 7. -/
def wenvDead : WatcherEnv := ⟨fun _ => false, 7⟩

/-- C9: when the lock file exists but records a dead pid (or is
malformed), startup removes the stale lock, acquires the lock with its
own pid and enters the running loop rather than exiting. -/
theorem c9_stale_lock_removed_and_running (env : WatcherEnv) (s : LockState)
    (h : (∃ p, s.lockFile = some (.pid p) ∧ env.alive p = false) ∨
         s.lockFile = some .malformed) :
    watch_database_start env s = .running ⟨some (.pid env.selfPid)⟩ := by
  unfold watch_database_start is_already_running acquire_lock
  rcases h with ⟨p, hp, ha⟩ | hm
  · rw [hp]
    simp [ha]
  · rw [hm]
    simp

/-- Witness for C9: stale lock recording dead pid 3, own pid 7. -/
theorem c9_witness :
    ((⟨some (.pid 3)⟩ : LockState).lockFile = some (.pid 3) ∧
      wenvDead.alive 3 = false) ∧
    watch_database_start wenvDead ⟨some (.pid 3)⟩ = .running ⟨some (.pid 7)⟩ :=
  ⟨⟨rfl, rfl⟩,
   c9_stale_lock_removed_and_running wenvDead ⟨some (.pid 3)⟩ (Or.inl ⟨3, rfl, rfl⟩)⟩

/-! ### Path lemmas for the per-document task -/

theorem process_async_err (env : Env) (m : String)
    (hw : env.workflow = .err m) :
    process_async env = ⟨false, 0, m⟩ := by
  unfold process_async
  rw [hw]

theorem process_async_ok (env : Env) (st : FinalState)
    (hw : env.workflow = .ok st) :
    process_async env = ⟨true, st.overall_score.getD 0, ""⟩ := by
  unfold process_async
  rw [hw]

theorem process_document_wf_err (env : Env) (db : DB) (id b m : String)
    (hw : env.workflow = .err m) :
    process_document env db id b =
      (update_document_status db id "failed" ⟨none, none, none, some m⟩,
       ⟨false, 0⟩) := by
  unfold process_document
  simp [process_async_err env m hw]

theorem process_document_sp_err (env : Env) (db : DB) (id b : String)
    (st : FinalState) (m : String)
    (hw : env.workflow = .ok st) (hsp : env.initSP = .error m) :
    process_document env db id b =
      (update_document_status db id "failed" ⟨none, none, none, some m⟩,
       ⟨false, 0⟩) := by
  unfold process_document
  simp [process_async_ok env st hw, hsp]

theorem process_document_approved (env : Env) (db : DB) (id b : String)
    (st : FinalState)
    (hw : env.workflow = .ok st) (hsp : env.initSP = .ok ())
    (hq : QUALITY_THRESHOLD ≤ st.overall_score.getD 0) :
    process_document env db id b =
      (update_batch_progress
        (update_document_status db id "completed"
          ⟨some (st.overall_score.getD 0), some (upload_approved env).content_url,
           some (upload_approved env).html_url, none⟩) b,
       ⟨true, (upload_approved env).leakedTempFiles⟩) := by
  unfold process_document
  simp [process_async_ok env st hw, hsp, hq]

theorem process_document_rejected (env : Env) (db : DB) (id b : String)
    (st : FinalState)
    (hw : env.workflow = .ok st) (hsp : env.initSP = .ok ())
    (hq : ¬ QUALITY_THRESHOLD ≤ st.overall_score.getD 0) :
    process_document env db id b =
      (update_batch_progress
        (update_document_status db id "failed"
          ⟨some (st.overall_score.getD 0), none,
           some (upload_failure_report env).1,
           some ("Quality score " ++ fmtTenths (st.overall_score.getD 0) ++
             " below threshold " ++ fmtTenths QUALITY_THRESHOLD)⟩) b,
       ⟨true, (upload_failure_report env).2⟩) := by
  unfold process_document
  simp [process_async_ok env st hw, hsp, hq]

/-- C1: whatever the Workflow Engine, SharePoint initialisation and
Storage Uploader do (including raising), `process_document` always
performs a terminal write for its document — the final status is
`completed` or `failed`, never `processing`; a workflow failure yields
`failed` with the raised error's description, and an uncaught exception
(the SharePoint init raising) is converted by the outer handler into
`failed` with that error's description. -/
theorem c1_task_always_terminal (env : Env) (db : DB)
    (document_id batch_id : String) (d : Document)
    (h : db.documents.lookup document_id = some d) :
    ∃ d', (process_document env db document_id batch_id).1.documents.lookup
        document_id = some d' ∧
      (d'.status = "completed" ∨ d'.status = "failed") ∧
      (∀ m, env.workflow = .err m →
        d'.status = "failed" ∧ d'.error_message = some m) ∧
      (∀ st m, env.workflow = .ok st → env.initSP = .error m →
        d'.status = "failed" ∧ d'.error_message = some m) := by
  cases hw : env.workflow with
  | err m =>
    rw [process_document_wf_err env db document_id batch_id m hw]
    refine ⟨applyKwargs ⟨none, none, none, some m⟩ { d with status := "failed" },
      lookup_update_document_status db document_id "failed" _ d h,
      Or.inr rfl, ?_, ?_⟩
    · intro m' hm'
      injection hm' with hh
      subst hh
      exact ⟨rfl, rfl⟩
    · intro st' m' hok _
      simp at hok
  | ok st =>
    cases hsp : env.initSP with
    | error msp =>
      rw [process_document_sp_err env db document_id batch_id st msp hw hsp]
      refine ⟨applyKwargs ⟨none, none, none, some msp⟩ { d with status := "failed" },
        lookup_update_document_status db document_id "failed" _ d h,
        Or.inr rfl, ?_, ?_⟩
      · intro m' hm'
        simp at hm'
      · intro st' m' _ hsp'
        injection hsp' with hh
        subst hh
        exact ⟨rfl, rfl⟩
    | ok u =>
      cases u
      by_cases hq : QUALITY_THRESHOLD ≤ st.overall_score.getD 0
      · rw [process_document_approved env db document_id batch_id st hw hsp hq]
        refine ⟨applyKwargs
            ⟨some (st.overall_score.getD 0), some (upload_approved env).content_url,
             some (upload_approved env).html_url, none⟩
            { d with status := "completed" },
          ?_, Or.inl rfl, ?_, ?_⟩
        · rw [documents_update_batch_progress]
          exact lookup_update_document_status db document_id "completed" _ d h
        · intro m' hm'
          simp at hm'
        · intro st' m' _ hsp'
          simp at hsp'
      · rw [process_document_rejected env db document_id batch_id st hw hsp hq]
        refine ⟨applyKwargs
            ⟨some (st.overall_score.getD 0), none, some (upload_failure_report env).1,
             some ("Quality score " ++ fmtTenths (st.overall_score.getD 0) ++
               " below threshold " ++ fmtTenths QUALITY_THRESHOLD)⟩
            { d with status := "failed" },
          ?_, Or.inr rfl, ?_, ?_⟩
        · rw [documents_update_batch_progress]
          exact lookup_update_document_status db document_id "failed" _ d h
        · intro m' hm'
          simp at hm'
        · intro st' m' _ hsp'
          simp at hsp'

/-- Witness for C1: workflow raising `boom` on the queued `d1`. -/
theorem c1_witness :
    dbQueued.documents.lookup "d1" = some docQueuedRow ∧
    (∃ d', (process_document envWfErr dbQueued "d1" "b1").1.documents.lookup
        "d1" = some d' ∧
      (d'.status = "completed" ∨ d'.status = "failed") ∧
      (∀ m, envWfErr.workflow = .err m →
        d'.status = "failed" ∧ d'.error_message = some m) ∧
      (∀ st m, envWfErr.workflow = .ok st → envWfErr.initSP = .error m →
        d'.status = "failed" ∧ d'.error_message = some m)) :=
  ⟨by decide,
   c1_task_always_terminal envWfErr dbQueued "d1" "b1" docQueuedRow (by decide)⟩

/-- C3 counterexample: when the Workflow Engine raises, the task writes
the terminal `failed` status and returns without ever invoking
`update_batch_progress` — contradicting the claim that batch progress
is recomputed after every terminal write. -/
theorem c3_counterexample :
    (((process_document envWfErr dbQueued "d1" "b1").1.documents.lookup "d1").map
      Document.status = some "failed") ∧
    (process_document envWfErr dbQueued "d1" "b1").2.progressCalled = false := by
  constructor <;> decide

/-- C3 amended: `update_batch_progress` is invoked before the task
returns exactly on the two quality-gate paths — when the workflow
returned successfully and SharePoint initialisation did not raise; on
the workflow-failure path and on the uncaught-exception path the
terminal write happens without any batch-progress recomputation. -/
theorem c3_amended_progress_iff_gate (env : Env) (db : DB) (id b : String) :
    (process_document env db id b).2.progressCalled = true ↔
      (∃ st, env.workflow = .ok st) ∧ env.initSP = .ok () := by
  cases hw : env.workflow with
  | err m =>
    rw [process_document_wf_err env db id b m hw]
    simp [hw]
  | ok st =>
    cases hsp : env.initSP with
    | error msp =>
      rw [process_document_sp_err env db id b st msp hw hsp]
      simp [hw, hsp]
    | ok u =>
      cases u
      by_cases hq : QUALITY_THRESHOLD ≤ st.overall_score.getD 0
      · rw [process_document_approved env db id b st hw hsp hq]
        simp [hw, hsp]
      · rw [process_document_rejected env db id b st hw hsp hq]
        simp [hw, hsp]

/-- C8: for every workflow result whose quality score is strictly below
the threshold, the task writes terminal `failed` with that score, a
report-URL value, and the message rendering score and threshold to one
decimal place. -/
theorem c8_below_threshold_failed_write (env : Env) (db : DB) (id b : String)
    (d : Document) (st : FinalState)
    (hw : env.workflow = .ok st) (hsp : env.initSP = .ok ())
    (hlt : st.overall_score.getD 0 < QUALITY_THRESHOLD)
    (h : db.documents.lookup id = some d) :
    ∃ d', (process_document env db id b).1.documents.lookup id = some d' ∧
      d'.status = "failed" ∧
      d'.quality_score = some (st.overall_score.getD 0) ∧
      d'.report_url = some (upload_failure_report env).1 ∧
      d'.error_message = some ("Quality score " ++
        fmtTenths (st.overall_score.getD 0) ++ " below threshold " ++
        fmtTenths QUALITY_THRESHOLD) := by
  have hq : ¬ QUALITY_THRESHOLD ≤ st.overall_score.getD 0 := Nat.not_le.mpr hlt
  rw [process_document_rejected env db id b st hw hsp hq]
  refine ⟨applyKwargs
      ⟨some (st.overall_score.getD 0), none, some (upload_failure_report env).1,
       some ("Quality score " ++ fmtTenths (st.overall_score.getD 0) ++
         " below threshold " ++ fmtTenths QUALITY_THRESHOLD)⟩
      { d with status := "failed" },
    ?_, rfl, rfl, rfl, rfl⟩
  rw [documents_update_batch_progress]
  exact lookup_update_document_status db id "failed" _ d h

/-- The workflow result of the C8 scenario: `quality_score = 4.0`. -/
def stReject : FinalState := ⟨some 40, "improved", "report.html", "<html></html>"⟩

/-- A rejection-path environment: score 4.0, all uploads succeed. -/
def envReject : Env :=
  ⟨.ok stReject, .ok (), .ok "https://sp/h", .ok "https://sp/t",
   .ok "https://sp/failed/report.html"⟩

/-- Witness for C8 at score 4.0 against threshold 7.0: the rendered
message is exactly the string the claim demands. -/
theorem c8_witness :
    ("Quality score " ++ fmtTenths (stReject.overall_score.getD 0) ++
      " below threshold " ++ fmtTenths QUALITY_THRESHOLD
      = "Quality score 4.0 below threshold 7.0") ∧
    (∃ d', (process_document envReject dbQueued "d1" "b1").1.documents.lookup
        "d1" = some d' ∧
      d'.status = "failed" ∧
      d'.quality_score = some (stReject.overall_score.getD 0) ∧
      d'.report_url = some (upload_failure_report envReject).1 ∧
      d'.error_message = some ("Quality score " ++
        fmtTenths (stReject.overall_score.getD 0) ++ " below threshold " ++
        fmtTenths QUALITY_THRESHOLD)) :=
  ⟨rfl,
   c8_below_threshold_failed_write envReject dbQueued "d1" "b1" docQueuedRow
     stReject rfl rfl (by decide) (by decide)⟩

/-- Case split for `create_batch`: the batches table either stays as it
was (duplicate key) or gains exactly the new pending row. -/
theorem create_batch_batches_cases (db : DB) (b u a : String) (t : Int) :
    (create_batch db b u a t).1.batches = db.batches ∨
    (create_batch db b u a t).1.batches
      = db.batches ++ [(b, ⟨u, a, t, 0, "pending"⟩)] := by
  unfold create_batch
  by_cases hb : (db.batches.lookup b).isSome
  · rw [if_pos hb]
    exact Or.inl rfl
  · rw [if_neg hb]
    exact Or.inr rfl

/-- C5 counterexample: `create_batch` with `total_docs = 0` yields a
reachable state whose batch has `completed_documents = total_documents`
(both 0) yet status `pending`, not `completed` — the claimed
biconditional fails on reachable states. -/
theorem c5_counterexample :
    Reachable dbBatch0 ∧
    dbBatch0.batches.lookup "b1"
      = some ⟨"u@ubs.com", "content_improvement", 0, 0, "pending"⟩ ∧
    (0 : Int) = (0 : Int) ∧
    ("pending" : String) ≠ "completed" :=
  ⟨Reachable.create ⟨[], []⟩ Reachable.init "b1" "u@ubs.com"
      "content_improvement" 0,
   by decide, rfl, by decide⟩

/-- C5 amended: in every reachable state, a batch whose status is
`completed` has `completed_documents ≥ total_documents` (the count can
exceed the total, and equality of the two counts does not imply status
`completed` — a fresh batch with `total_docs = 0` stays `pending`). -/
theorem c5_amended_completed_batch_geq (db : DB) (hR : Reachable db) :
    ∀ p ∈ db.batches, p.2.status = "completed" →
      p.2.completed_documents ≥ p.2.total_documents := by
  induction hR with
  | init =>
    intro p hp
    simp at hp
  | create db h b u a t ih =>
    intro p hp hs
    rcases create_batch_batches_cases db b u a t with hc | hc
    · rw [hc] at hp
      exact ih p hp hs
    · rw [hc] at hp
      rcases List.mem_append.mp hp with h1 | h2
      · exact ih p h1 hs
      · simp only [List.mem_singleton] at h2
        rw [h2] at hs
        have hps : ("pending" : String) = "completed" := hs
        exact absurd hps (by decide)
  | add db h d ih =>
    intro p hp hs
    rw [add_document_batches] at hp
    exact ih p hp hs
  | mark db h id ih =>
    intro p hp hs
    exact ih p hp hs
  | upd db h id s k ih =>
    intro p hp hs
    exact ih p hp hs
  | progress db h b ih =>
    intro p hp hs
    rcases mem_updateWhere b (progressUpdate db b) db.batches p hp with h1 | ⟨q, hq, hpq⟩
    · exact ih p h1 hs
    · subst hpq
      by_cases hc : batchTerminalCount db b ≥ q.2.total_documents
      · exact hc
      · have hs' : (if batchTerminalCount db b ≥ q.2.total_documents
            then "completed" else "processing") = "completed" := hs
        rw [if_neg hc] at hs'
        exact absurd hs' (by decide)

/-- The batch row after the C5 witness run: one terminal document
counted against a zero-total batch. -/
def batchDoneRow : Batch := ⟨"u@ubs.com", "content_improvement", 0, 1, "completed"⟩

/-- The C5 witness store: batch `b1` (total 0), document `d1` enqueued,
written terminal, then batch progress recomputed. -/
def dbProgressed : DB :=
  update_batch_progress
    (update_document_status (add_document dbBatch0 dataD).1 "d1" "completed" noKwargs)
    "b1"

theorem reachable_dbProgressed : Reachable dbProgressed :=
  Reachable.progress _
    (Reachable.upd _
      (Reachable.add _
        (Reachable.create ⟨[], []⟩ Reachable.init "b1" "u@ubs.com"
          "content_improvement" 0)
        dataD)
      "d1" "completed" noKwargs)
    "b1"

/-- Witness for C5 amended: the completed batch of `dbProgressed`. -/
theorem c5_amended_witness :
    Reachable dbProgressed ∧ ("b1", batchDoneRow) ∈ dbProgressed.batches ∧
    batchDoneRow.status = "completed" ∧
    batchDoneRow.completed_documents ≥ batchDoneRow.total_documents :=
  ⟨reachable_dbProgressed, by decide, rfl,
   c5_amended_completed_batch_geq dbProgressed reachable_dbProgressed
     ("b1", batchDoneRow) (by decide) rfl⟩
